import Mathlib

/-
Verification of the ami agent operating system (src/ami/os.py and the apps
in src/ami/apps/) against its natural-language specification.

The Python code is shallowly embedded: pydantic models become inductive
types, the mutable OS object becomes an explicit OSState record threaded
through pure functions, Python exceptions become an Except monad over a
PyError type, and the interactive confirmation gate becomes an explicit
boolean answer passed to the dispatcher.
-/

namespace Ami

/-- Text effects of the echo app (src/ami/apps/echo.py, class TextEffect). -/
inductive TextEffect
| uppercase
| lowercase
| reverse
| alternating
deriving DecidableEq, Repr

/-- The string value of a text effect (the str-enum values in echo.py). -/
def TextEffect.value : TextEffect → String
| .uppercase => "uppercase"
| .lowercase => "lowercase"
| .reverse => "reverse"
| .alternating => "alternating"

/-- Structured actions the model can emit, the union of all action models in
the repository: LaunchAppAction and ExitAppAction (src/ami/models.py),
EchoAction (echo.py), SSHAction (ssh.py), NavigateAction and ClickAction
(browser.py). Each pydantic model is one constructor; its Literal type tag is
recovered by AgentAction.tag. -/
inductive AgentAction
| launch_app (app_name : String)
| exit_app
| echo (message : String) (effect : TextEffect)
| ssh (commands : List String)
| navigate (url : String)
| click (element : Int)
deriving DecidableEq, Repr

/-- The Literal discriminator value of each action model. -/
def AgentAction.tag : AgentAction → String
| .launch_app _ => "launch_app"
| .exit_app => "exit_app"
| .echo _ _ => "echo"
| .ssh _ => "ssh"
| .navigate _ => "navigate"
| .click _ => "click"

/-- True for the app-specific actions, i.e. every action whose tag is neither
launch_app nor exit_app.  These are exactly the actions that fall into the
final else branch of OS.handle_agent_action. -/
def AgentAction.is_app_specific : AgentAction → Bool
| .launch_app _ => false
| .exit_app => false
| _ => true

/-- Python exceptions raised by the modelled code paths.  valueError covers
the explicit raise ValueError sites in os.py; keyError models the dict lookup
self.apps[app_name]; attributeError models attribute access on None (and on
action objects lacking a field); schemaViolation models the openai parse step
rejecting a payload that does not decode against the requested schema. -/
inductive PyError
| valueError (msg : String)
| keyError (key : String)
| attributeError (msg : String)
| schemaViolation (msg : String)
deriving DecidableEq, Repr

/-- The str(e) text of an exception, as interpolated by the main loop into
the corrective system message "Error occurred: ...". -/
def PyError.message : PyError → String
| .valueError msg => msg
| .keyError key => key
| .attributeError msg => msg
| .schemaViolation msg => msg

/-- One conversation message.  The Python code stores role plus content,
where content is either plain text or a two-part text plus base64 image list
(OS._format_conversation_message); the optional image field captures the
second part. -/
structure Message where
  role : String
  text : String
  image : Option String
deriving DecidableEq, Repr

/-- An app (src/ami/app.py, class App, as used by os.py): a stable name, a
usage prompt injected into the conversation on launch, the list of action
model tags returned by get_action_models(), and the handle_response method.
The tag list stands for the list of pydantic model classes: each model class
is identified by its Literal type tag. -/
structure App where
  name : String
  usage_prompt : String
  get_action_models : List String
  handle_response : AgentAction → Except PyError (String × Option String)

/-- Apply a text effect to a message, following the branches of
EchoApp.handle_response (echo.py lines 63-71).  The Python string methods
upper and lower act character-wise, embedded as maps over the char list. -/
def applyEffect : TextEffect → String → String
| .uppercase, message => String.mk (message.data.map Char.toUpper)
| .lowercase, message => String.mk (message.data.map Char.toLower)
| .reverse, message => String.mk message.data.reverse
| .alternating, message =>
    String.mk ((message.data.enum).map
      (fun p => if p.1 % 2 = 0 then p.2.toUpper else p.2.toLower))

/-- EchoApp.handle_response (echo.py lines 58-73).  An echo action yields the
formatted echo text; any other action object lacks the message attribute, so
the attribute access response.message raises AttributeError. -/
def echoHandle : AgentAction → Except PyError (String × Option String)
| .echo message effect =>
    .ok ("Echo (" ++ effect.value ++ "): " ++ applyEffect effect message, none)
| _ => .error (.attributeError "object has no attribute message")

/-- The echo app (echo.py, class EchoApp).  The usage prompt is abbreviated
to its opening line; no property below depends on its exact text, only on
its presence in the conversation. -/
def echoApp : App where
  name := "echo"
  usage_prompt :=
    "This is the Echo app. You can send messages and have them echoed back with different text effects."
  get_action_models := ["echo"]
  handle_response := echoHandle

/-- Result of executing one SSH command (ssh.py, class CommandResult). -/
structure CommandResult where
  exit_code : Int
  stdout : String
  stderr : String
deriving DecidableEq, Repr

/-- Outcome of the paramiko interaction inside SSHApp._execute_ssh_command:
either the remote command completed and recv_exit_status returned a status
(with the accumulated stdout and stderr), or some step raised, in which case
the except branch sets exit_status to the int negative one and overwrites
stderr_str with str(e) while keeping whatever stdout had accumulated. -/
inductive SSHOutcome
| completed (exit_status : Int) (stdout stderr : String)
| raised (stdout_so_far : String) (error_message : String)
deriving DecidableEq, Repr

/-- Python truthiness of the expression exit_status or -1 at ssh.py line 146:
None and 0 are falsy, so both map to -1; any nonzero status is truthy and is
returned unchanged. -/
def exitStatusOrNegOne : Option Int → Int
| none => -1
| some n => if n = 0 then -1 else n

/-- SSHApp._execute_ssh_command (ssh.py lines 85-149) as a function of the
interaction outcome: the CommandResult it builds in the final return. -/
def _execute_ssh_command : SSHOutcome → CommandResult
| .completed exit_status out err =>
    { exit_code := exitStatusOrNegOne (some exit_status)
      stdout := out
      stderr := err }
| .raised out msg =>
    { exit_code := exitStatusOrNegOne (some (-1))
      stdout := out
      stderr := msg }

/-- The mutable state of the OS object (os.py, class OS): the registry dict
self.apps as an insertion-ordered association list, self.current_app, and
self.conversation. -/
structure OSState where
  apps : List (String × App)
  current_app : Option App
  conversation : List Message

/-- Python dict lookup self.apps[name], returning none where Python would
raise KeyError. -/
def lookupApp (apps : List (String × App)) (name : String) : Option App :=
  (apps.find? (fun p => p.1 == name)).map Prod.snd

/-- OS.register_app: self.apps[app.name] = app.  Updating an existing dict
key keeps its position; a new key is appended. -/
def register_app (apps : List (String × App)) (app : App) : List (String × App) :=
  if (apps.map Prod.fst).contains app.name then
    apps.map (fun p => if p.1 = app.name then (p.1, app) else p)
  else
    apps ++ [(app.name, app)]

/-- One member of the action union of a composed response format.  launchApp
carries the Literal list of legal app names built at os.py line 106; exitApp
is the ExitAppAction model; appModel t is an app-declared action model with
Literal tag t. -/
inductive ActionVariant
| launchApp (app_names : List String)
| exitApp
| appModel (tag : String)
deriving DecidableEq, Repr

/-- The response format composed for the next model output: the action union
of the dynamically created HomeResponse or AppResponse model.  The common
thoughts field of BaseResponse is shared by both shapes and carries no
state-dependent information, so only the action union is modelled. -/
structure ResponseFormat where
  action_variants : List ActionVariant
deriving DecidableEq, Repr

/-- OS.current_response_format (os.py lines 96-135).  At home, the single
launch_app variant constrains app_name to Literal of list(self.apps.keys()),
after raising ValueError when the registry is empty.  In an app, the union is
Union of the app's action models plus ExitAppAction; typing.Union collapses
repeated members, which List.dedup mirrors. -/
def current_response_format (s : OSState) : Except PyError ResponseFormat :=
  match s.current_app with
  | none =>
      let app_names := s.apps.map Prod.fst
      if app_names.isEmpty then
        .error (.valueError "No apps registered")
      else
        .ok { action_variants := [ActionVariant.launchApp app_names] }
  | some app =>
      .ok { action_variants :=
              (app.get_action_models.map ActionVariant.appModel
                ++ [ActionVariant.exitApp]).dedup }

/-- OS.handle_agent_action (os.py lines 149-208), with the interactive
confirmation gate made explicit: confirm is the answer get_user_confirmation
would give when consulted on this dispatch.  The branch structure follows the
source: launch_app asks for confirmation and then indexes the registry;
exit_app first interpolates self.current_app.name into the log message, which
raises AttributeError when current_app is None, then asks for confirmation;
every other action first checks for an active app (ValueError otherwise),
then asks for confirmation and forwards to the active app's handle_response,
re-raising whatever the handler raises. -/
def handle_agent_action (s : OSState) (confirm : Bool) (action : AgentAction) :
    Except PyError (OSState × String × Option String) :=
  match action with
  | .launch_app app_name =>
      if !confirm then
        .ok (s, "Action denied by user", none)
      else
        match lookupApp s.apps app_name with
        | none => .error (.keyError app_name)
        | some app =>
            .ok ({ s with
                    current_app := some app
                    conversation := s.conversation
                      ++ [{ role := "system", text := app.usage_prompt, image := none }] },
                 "Launched app: " ++ app_name, none)
  | .exit_app =>
      match s.current_app with
      | none => .error (.attributeError "NoneType object has no attribute name")
      | some _ =>
          if !confirm then
            .ok (s, "Action denied by user", none)
          else
            .ok ({ s with current_app := none }, "Returned to home screen", none)
  | a =>
      match s.current_app with
      | none => .error (.valueError "No app is currently active")
      | some app =>
          if !confirm then
            .ok (s, "Action denied by user", none)
          else
            match app.handle_response a with
            | .ok (text, image) => .ok (s, text, image)
            | .error e => .error e

/-- True exactly when OS.handle_agent_action reaches a get_user_confirmation
call on this dispatch: always for launch_app, and for every other action only
when an app is active (otherwise the dispatch raises before the gate). -/
def asks_confirmation (s : OSState) (action : AgentAction) : Bool :=
  match action with
  | .launch_app _ => true
  | _ => s.current_app.isSome

/-- The structured reply parsed by the Transport Adapter call (the dynamically
created response model): the thoughts list of BaseResponse plus the chosen
action. -/
structure ModelResponse where
  thoughts : List String
  action : AgentAction
deriving DecidableEq, Repr

/-- Stand-in for json.dumps of the assistant reply appended to the
conversation at os.py lines 248-254.  No property below depends on its exact
text, only on the assistant message being appended. -/
def dump_response (r : ModelResponse) : String :=
  String.intercalate " " r.thoughts ++ " action: " ++ r.action.tag

/-- What one Transport Adapter call produces inside the try block of OS.run:
a successfully parsed response, a raised exception (network failure or a
payload that does not decode against the requested schema), or a keyboard
interrupt. -/
inductive TransportReply
| parsed (response : ModelResponse)
| errored (e : PyError)
| interrupted
deriving Repr

/-- Outcome of one iteration of the while loop in OS.run: either the loop
proceeds to the next turn with the updated state, or it breaks (only on
KeyboardInterrupt). -/
inductive TurnOutcome
| nextTurn (s : OSState)
| halted (s : OSState)

/-- The except-Exception branch of the main loop (os.py lines 276-281):
append one corrective system message built from str(e) and continue. -/
def append_system_error (s : OSState) (e : PyError) : OSState :=
  { s with conversation := s.conversation
      ++ [{ role := "system", text := "Error occurred: " ++ e.message, image := none }] }

/-- OS._format_conversation_message (os.py lines 137-147): a user message
holding the result text and, when present, the base64 image. -/
def _format_conversation_message (text : String) (image : Option String) : Message :=
  { role := "user", text := text, image := image }

/-- One iteration of the while loop in OS.run (os.py lines 226-281), with the
Transport Adapter call abstracted into its reply.  The iteration first
composes current_response_format; any exception raised inside the try block
falls into the except branch, which appends one corrective system message and
continues; a parsed response is appended as an assistant message, dispatched
through handle_agent_action, and a non-empty result text is appended as the
next user message.  KeyboardInterrupt breaks the loop. -/
def run_turn (s : OSState) (reply : TransportReply) (confirm : Bool) : TurnOutcome :=
  match current_response_format s with
  | .error e => .nextTurn (append_system_error s e)
  | .ok _ =>
      match reply with
      | .interrupted => .halted s
      | .errored e => .nextTurn (append_system_error s e)
      | .parsed response =>
          let s1 := { s with conversation := s.conversation
              ++ [{ role := "assistant", text := dump_response response, image := none }] }
          match handle_agent_action s1 confirm response.action with
          | .error e => .nextTurn (append_system_error s1 e)
          | .ok (s2, text, image) =>
              if text = "" then .nextTurn s2
              else .nextTurn { s2 with conversation := s2.conversation
                  ++ [_format_conversation_message text image] }

/-- The initial user message appended by OS.run before the loop starts
(os.py lines 221-224). -/
def initial_user_message : Message :=
  { role := "user"
    text := "What would you like to do? Please explain your reasoning."
    image := none }

/-- The while loop of OS.run, driven by a finite list of Transport Adapter
replies (one per iteration) and the per-turn confirmation answers. -/
def run_loop : OSState → List TransportReply → List Bool → OSState
| s, [], _ => s
| s, reply :: rest, confirms =>
    match run_turn s reply (confirms.headD true) with
    | .halted s2 => s2
    | .nextTurn s2 => run_loop s2 rest confirms.tail

/-- OS.run (os.py lines 210-281): raise ValueError when the registry is
empty, before anything else happens; otherwise append the initial user
message and enter the loop. -/
def run (s : OSState) (replies : List TransportReply) (confirms : List Bool) :
    Except PyError OSState :=
  if s.apps.isEmpty then
    .error (.valueError "No apps registered. Please register at least one app before running.")
  else
    .ok (run_loop
      { s with conversation := s.conversation ++ [initial_user_message] }
      replies confirms)

/-- Home-screen state whose registry holds exactly the echo app, as built by
registering EchoApp on a fresh OS. -/
def homeEchoState : OSState :=
  { apps := [("echo", echoApp)], current_app := none, conversation := [] }

/-- The same registry with the echo app active. -/
def inAppEchoState : OSState :=
  { apps := [("echo", echoApp)], current_app := some echoApp, conversation := [] }

/-- homeEchoState after a confirmed launch of the echo app: the echo app is
active and its usage prompt has been appended to the conversation. -/
def postLaunch : OSState :=
  { apps := [("echo", echoApp)]
    current_app := some echoApp
    conversation := [{ role := "system", text := echoApp.usage_prompt, image := none }] }

/-- postLaunch after a confirmed exit_app: back at the home screen, with the
usage prompt still in the conversation. -/
def postExit : OSState :=
  { apps := [("echo", echoApp)]
    current_app := none
    conversation := [{ role := "system", text := echoApp.usage_prompt, image := none }] }

/-- A state with an empty registry and no active app. -/
def emptyRegistryState : OSState :=
  { apps := [], current_app := none, conversation := [] }

/-- get_user_confirmation (os.py lines 35-50) as a function of the sequence
of input lines: strip and lowercase the line, substitute the lowercased
default for a blank line, return on y or yes and on n or no, and otherwise
loop on the remaining lines; none if the input is exhausted first. -/
def get_user_confirmation (default : String) : List String → Option Bool
| [] => none
| line :: rest =>
    let choice := line.trim.toLower
    let choice := if choice = "" then default.toLower else choice
    if choice = "y" ∨ choice = "yes" then some true
    else if choice = "n" ∨ choice = "no" then some false
    else get_user_confirmation default rest

/-- Modelled from the spec's words, for comparison with the source embedding:
the confirmation read returns exactly the value determined by the first valid
answer among the input lines, where a valid answer is a line that (after
stripping, lowercasing and substituting the default for blank input) reads
y or yes, or n or no. -/
def first_valid_answer_spec (default : String) (lines : List String) : Option Bool :=
  lines.findSome? (fun line =>
    let choice := line.trim.toLower
    let choice := if choice = "" then default.toLower else choice
    if choice = "y" ∨ choice = "yes" then some true
    else if choice = "n" ∨ choice = "no" then some false
    else none)

/-- With at least one registered app, composing the response format always
succeeds, in both the home and the in-app state. -/
theorem current_response_format_isOk (s : OSState) (h : s.apps ≠ []) :
    ∃ fmt, current_response_format s = .ok fmt := by
  cases hc : s.current_app with
  | some app =>
      refine ⟨⟨(app.get_action_models.map ActionVariant.appModel
                ++ [ActionVariant.exitApp]).dedup⟩, ?_⟩
      simp [current_response_format, hc]
  | none =>
      have hne : (s.apps.map Prod.fst).isEmpty = false := by
        cases hs : s.apps
        · exact absurd hs h
        · rfl
      refine ⟨⟨[ActionVariant.launchApp (s.apps.map Prod.fst)]⟩, ?_⟩
      simp [current_response_format, hc, hne]

/-- Claim C1: for every agent state with no active app and a non-empty app
registry, the composed response format has an action union with exactly one
variant, launch_app, and the legal values of its app_name field are exactly
the set of app names registered at that instant. -/
theorem home_schema_single_launch_variant (s : OSState)
    (h0 : s.current_app = none) (h1 : s.apps ≠ []) :
    ∃ names, current_response_format s = .ok ⟨[ActionVariant.launchApp names]⟩ ∧
      ∀ x, x ∈ names ↔ x ∈ s.apps.map Prod.fst := by
  have hne : (s.apps.map Prod.fst).isEmpty = false := by
    cases hs : s.apps
    · exact absurd hs h1
    · rfl
  refine ⟨s.apps.map Prod.fst, ?_, fun x => Iff.rfl⟩
  simp [current_response_format, h0, hne]

/-- Witness for C1 at the concrete one-app registry. -/
theorem home_schema_single_launch_variant_witness :
    ∃ names, current_response_format homeEchoState = .ok ⟨[ActionVariant.launchApp names]⟩ ∧
      ∀ x, x ∈ names ↔ x ∈ homeEchoState.apps.map Prod.fst :=
  home_schema_single_launch_variant homeEchoState rfl (by simp [homeEchoState])

/-- Claim C2: for every agent state with an active app, the composed response
format's action union equals the app's declared action models together with
exit_app, with no duplicate members and no extraneous members. -/
theorem in_app_schema_union (s : OSState) (app : App)
    (h : s.current_app = some app) :
    ∃ variants, current_response_format s = .ok ⟨variants⟩ ∧
      variants.Nodup ∧
      ∀ v, v ∈ variants ↔
        (v = ActionVariant.exitApp ∨
          ∃ t ∈ app.get_action_models, v = ActionVariant.appModel t) := by
  refine ⟨(app.get_action_models.map ActionVariant.appModel
            ++ [ActionVariant.exitApp]).dedup, ?_, List.nodup_dedup _, ?_⟩
  · simp [current_response_format, h]
  · intro v
    rw [List.mem_dedup]
    simp only [List.mem_append, List.mem_map, List.mem_singleton]
    constructor
    · rintro (⟨t, ht, rfl⟩ | rfl)
      · exact Or.inr ⟨t, ht, rfl⟩
      · exact Or.inl rfl
    · rintro (rfl | ⟨t, ht, rfl⟩)
      · exact Or.inr rfl
      · exact Or.inl ⟨t, ht, rfl⟩

/-- Witness for C2 with the echo app active. -/
theorem in_app_schema_union_witness :
    ∃ variants, current_response_format inAppEchoState = .ok ⟨variants⟩ ∧
      variants.Nodup ∧
      ∀ v, v ∈ variants ↔
        (v = ActionVariant.exitApp ∨
          ∃ t ∈ echoApp.get_action_models, v = ActionVariant.appModel t) :=
  in_app_schema_union inAppEchoState echoApp rfl

/-- Claim C3: whenever a dispatch reaches the confirmation gate and the gate
declines, handle_agent_action returns the text result "Action denied by user"
and the state is returned unchanged.  Because the equation holds for every
state — in particular for states whose active app carries an arbitrary
handle_response function — the result is independent of the app handler, so
the handler is never invoked; and because the returned state is the input
state itself, repeating the same declined dispatch yields the same state
again. -/
theorem declined_action_leaves_state_unchanged (s : OSState) (action : AgentAction)
    (h : asks_confirmation s action = true) :
    handle_agent_action s false action = .ok (s, "Action denied by user", none) := by
  cases action with
  | launch_app name => rfl
  | exit_app =>
      cases hc : s.current_app with
      | none => simp [asks_confirmation, hc] at h
      | some app => simp [handle_agent_action, hc]
  | echo m e =>
      cases hc : s.current_app with
      | none => simp [asks_confirmation, hc] at h
      | some app => simp [handle_agent_action, hc]
  | ssh cmds =>
      cases hc : s.current_app with
      | none => simp [asks_confirmation, hc] at h
      | some app => simp [handle_agent_action, hc]
  | navigate url =>
      cases hc : s.current_app with
      | none => simp [asks_confirmation, hc] at h
      | some app => simp [handle_agent_action, hc]
  | click el =>
      cases hc : s.current_app with
      | none => simp [asks_confirmation, hc] at h
      | some app => simp [handle_agent_action, hc]

/-- Witness for C3: a declined launch of the echo app from the home screen. -/
theorem declined_action_leaves_state_unchanged_witness :
    asks_confirmation homeEchoState (AgentAction.launch_app "echo") = true ∧
    handle_agent_action homeEchoState false (AgentAction.launch_app "echo") =
      .ok (homeEchoState, "Action denied by user", none) :=
  ⟨rfl, declined_action_leaves_state_unchanged homeEchoState (AgentAction.launch_app "echo") rfl⟩

/-- Counterexample to claim C4: with the echo app active, the tag launch_app
is not legal in the in-app state, yet dispatching it does not fail with any
error — it is handled as a normal app launch, returning ok with the result
"Launched app: echo" and re-appending the usage prompt. -/
theorem in_app_launch_dispatch_not_rejected :
    handle_agent_action inAppEchoState true (AgentAction.launch_app "echo") =
      .ok (postLaunch, "Launched app: echo", none) := rfl

/-- Claim C4 as amended: from the home state, any action whose tag is not
launch_app does fail — exit_app with an AttributeError (the log line
dereferences self.current_app.name before the gate) and every app-specific
tag with ValueError — and is never forwarded; but in the in-app state no
InvalidActionError exists: a launch_app tag is dispatched as a normal app
launch, and every app-specific tag (declared by the active app or not) is
confirmation-gated and forwarded to the active app's handle_response. -/
theorem illegal_tag_dispatch_behavior :
    (∀ (s : OSState) (confirm : Bool), s.current_app = none →
        handle_agent_action s confirm .exit_app =
          .error (.attributeError "NoneType object has no attribute name")) ∧
    (∀ (s : OSState) (confirm : Bool) (a : AgentAction),
        s.current_app = none → a.is_app_specific = true →
        handle_agent_action s confirm a =
          .error (.valueError "No app is currently active")) ∧
    (∀ (s : OSState) (app : App) (a : AgentAction),
        s.current_app = some app → a.is_app_specific = true →
        handle_agent_action s true a =
          (app.handle_response a).map (fun r => (s, r.1, r.2))) ∧
    (∀ (s : OSState) (app a2 : App) (name : String),
        s.current_app = some app → lookupApp s.apps name = some a2 →
        handle_agent_action s true (.launch_app name) =
          .ok ({ s with
                  current_app := some a2
                  conversation := s.conversation
                    ++ [{ role := "system", text := a2.usage_prompt, image := none }] },
               "Launched app: " ++ name, none)) := by
  refine ⟨?_, ?_, ?_, ?_⟩
  · intro s confirm h
    simp [handle_agent_action, h]
  · intro s confirm a h ha
    cases a <;> simp_all [AgentAction.is_app_specific, handle_agent_action]
  · intro s app a h ha
    cases a with
    | launch_app n => simp [AgentAction.is_app_specific] at ha
    | exit_app => simp [AgentAction.is_app_specific] at ha
    | echo m e =>
        cases hr : app.handle_response (AgentAction.echo m e) with
        | ok r => cases r with | mk t i => simp [handle_agent_action, h, hr, Except.map]
        | error e2 => simp [handle_agent_action, h, hr, Except.map]
    | ssh cmds =>
        cases hr : app.handle_response (AgentAction.ssh cmds) with
        | ok r => cases r with | mk t i => simp [handle_agent_action, h, hr, Except.map]
        | error e2 => simp [handle_agent_action, h, hr, Except.map]
    | navigate url =>
        cases hr : app.handle_response (AgentAction.navigate url) with
        | ok r => cases r with | mk t i => simp [handle_agent_action, h, hr, Except.map]
        | error e2 => simp [handle_agent_action, h, hr, Except.map]
    | click el =>
        cases hr : app.handle_response (AgentAction.click el) with
        | ok r => cases r with | mk t i => simp [handle_agent_action, h, hr, Except.map]
        | error e2 => simp [handle_agent_action, h, hr, Except.map]
  · intro s app a2 name h hl
    simp [handle_agent_action, hl]

/-- Witness for C4's amended claim: exit_app from the empty home state raises
AttributeError, and an undeclared ssh tag inside the echo app is forwarded to
the echo handler. -/
theorem illegal_tag_dispatch_behavior_witness :
    handle_agent_action emptyRegistryState true AgentAction.exit_app =
      .error (.attributeError "NoneType object has no attribute name") ∧
    handle_agent_action inAppEchoState true (AgentAction.ssh ["ls"]) =
      ((echoApp.handle_response (AgentAction.ssh ["ls"])).map
        (fun r => (inAppEchoState, r.1, r.2))) :=
  ⟨illegal_tag_dispatch_behavior.1 emptyRegistryState true rfl,
   illegal_tag_dispatch_behavior.2.2.1 inAppEchoState echoApp (AgentAction.ssh ["ls"]) rfl rfl⟩

/-- Claim C5: with an empty registry, OS.run fails with the configuration
error before any Transport Adapter call is made — the result is this error
for every list of transport replies, so no reply is ever consumed — and
composing the home-state response format likewise fails. -/
theorem empty_registry_fails_before_transport (s : OSState) (h : s.apps = []) :
    (∀ replies confirms, run s replies confirms =
        .error (.valueError "No apps registered. Please register at least one app before running.")) ∧
    (s.current_app = none →
        current_response_format s = .error (.valueError "No apps registered")) := by
  constructor
  · intro replies confirms
    simp [run, h]
  · intro h0
    simp [current_response_format, h0, h]

/-- Witness for C5 at the concrete empty-registry state. -/
theorem empty_registry_fails_before_transport_witness :
    run emptyRegistryState [] [] =
      .error (.valueError "No apps registered. Please register at least one app before running.") ∧
    current_response_format emptyRegistryState =
      .error (.valueError "No apps registered") :=
  ⟨(empty_registry_fails_before_transport emptyRegistryState rfl).1 [] [],
   (empty_registry_fails_before_transport emptyRegistryState rfl).2 rfl⟩

/-- Claim C6: when the Transport Adapter raises because the returned payload
violates the requested schema, the loop iteration does not crash: it yields
a nextTurn outcome whose state keeps current_app (and everything else except
the conversation) unchanged and whose conversation has gained exactly one
corrective system message. -/
theorem schema_violation_recovers_one_message (s : OSState) (msg : String)
    (confirm : Bool) (h : s.apps ≠ []) :
    run_turn s (.errored (.schemaViolation msg)) confirm =
      .nextTurn { s with conversation := s.conversation
          ++ [{ role := "system", text := "Error occurred: " ++ msg, image := none }] } := by
  obtain ⟨fmt, hfmt⟩ := current_response_format_isOk s h
  simp [run_turn, hfmt, append_system_error, PyError.message]

/-- Witness for C6 at the one-app home state. -/
theorem schema_violation_recovers_one_message_witness :
    run_turn homeEchoState (.errored (.schemaViolation "payload does not match schema")) true =
      .nextTurn { homeEchoState with conversation := homeEchoState.conversation
          ++ [{ role := "system"
                text := "Error occurred: " ++ "payload does not match schema"
                image := none }] } :=
  schema_violation_recovers_one_message homeEchoState "payload does not match schema" true
    (by simp [homeEchoState])

/-- Counterexample to claim C7: launching the echo app (confirmed) and then
immediately exiting (confirmed) does return current_app to none, but the
resulting agent state is not identical to the initial state — the launch
appended the echo usage prompt to the conversation, and the exit does not
remove it. -/
theorem echo_round_trip_state_not_identical :
    handle_agent_action homeEchoState true (AgentAction.launch_app "echo") =
      .ok (postLaunch, "Launched app: echo", none) ∧
    handle_agent_action postLaunch true AgentAction.exit_app =
      .ok (postExit, "Returned to home screen", none) ∧
    postExit.current_app = none ∧
    postExit ≠ homeEchoState :=
  ⟨rfl, rfl, rfl,
   fun hEq => absurd (congrArg OSState.conversation hEq) (by decide)⟩

/-- Claim C7 as amended: launching the app "echo" (confirmed) and then
immediately exiting (confirmed) returns current_app to its initial value
none, and leaves the registry unchanged; the full agent state is however not
identical to the initial one, because the conversation has gained the echo
app's usage-prompt system message. -/
theorem echo_round_trip_current_app_restored (s : OSState)
    (h0 : s.current_app = none) (h1 : lookupApp s.apps "echo" = some echoApp) :
    ∃ s1 s2,
      handle_agent_action s true (AgentAction.launch_app "echo") =
        .ok (s1, "Launched app: echo", none) ∧
      handle_agent_action s1 true AgentAction.exit_app =
        .ok (s2, "Returned to home screen", none) ∧
      s2.current_app = s.current_app ∧
      s2.apps = s.apps ∧
      s2.conversation = s.conversation
        ++ [{ role := "system", text := echoApp.usage_prompt, image := none }] := by
  refine ⟨{ s with
            current_app := some echoApp
            conversation := s.conversation
              ++ [{ role := "system", text := echoApp.usage_prompt, image := none }] },
          { s with
            current_app := none
            conversation := s.conversation
              ++ [{ role := "system", text := echoApp.usage_prompt, image := none }] },
          ?_, ?_, ?_, rfl, rfl⟩
  · simp [handle_agent_action, h1]
  · simp [handle_agent_action]
  · rw [h0]

/-- Witness for C7's amended claim at the one-app home state. -/
theorem echo_round_trip_current_app_restored_witness :
    ∃ s1 s2,
      handle_agent_action homeEchoState true (AgentAction.launch_app "echo") =
        .ok (s1, "Launched app: echo", none) ∧
      handle_agent_action s1 true AgentAction.exit_app =
        .ok (s2, "Returned to home screen", none) ∧
      s2.current_app = homeEchoState.current_app ∧
      s2.apps = homeEchoState.apps ∧
      s2.conversation = homeEchoState.conversation
        ++ [{ role := "system", text := echoApp.usage_prompt, image := none }] :=
  echo_round_trip_current_app_restored homeEchoState rfl rfl

/-- Claim C8: with the registry holding exactly the echo app, a confirmed
launch returns "Launched app: echo" and activates the echo app; a confirmed
echo of "Hello World" with the uppercase effect returns a result text that
contains "HELLO WORLD" and leaves current_app (indeed the whole state)
unchanged; a confirmed exit_app returns "Returned to home screen" and sets
current_app back to none. -/
theorem echo_scenario_three_turns :
    handle_agent_action homeEchoState true (AgentAction.launch_app "echo") =
      .ok (postLaunch, "Launched app: echo", none) ∧
    postLaunch.current_app = some echoApp ∧
    handle_agent_action postLaunch true (AgentAction.echo "Hello World" TextEffect.uppercase) =
      .ok (postLaunch, "Echo (uppercase): HELLO WORLD", none) ∧
    (∃ before after, "Echo (uppercase): HELLO WORLD" = before ++ "HELLO WORLD" ++ after) ∧
    handle_agent_action postLaunch true AgentAction.exit_app =
      .ok (postExit, "Returned to home screen", none) ∧
    postExit.current_app = none :=
  ⟨rfl, rfl, rfl, ⟨"Echo (uppercase): ", "", by decide⟩, rfl, rfl⟩

/-- Claim C9: for every sequence of input lines, get_user_confirmation
returns exactly the value determined by the first valid answer: true on the
first line that strips and lowercases to y or yes, false on the first that
does so to n or no, a blank line standing for the default answer, and every
other line skipped (re-prompted) without producing a value.  This is stated
as equality with the spec-level first-valid-answer function on all inputs. -/
theorem confirmation_first_valid_answer (default : String) (lines : List String) :
    get_user_confirmation default lines = first_valid_answer_spec default lines := by
  induction lines with
  | nil => rfl
  | cons line rest ih =>
      rw [get_user_confirmation, first_valid_answer_spec, List.findSome?_cons]
      dsimp only []
      generalize (if line.trim.toLower = "" then default.toLower else line.trim.toLower) = c
      by_cases h1 : c = "y" ∨ c = "yes"
      · rw [if_pos h1, if_pos h1]
      · rw [if_neg h1, if_neg h1]
        by_cases h2 : c = "n" ∨ c = "no"
        · rw [if_pos h2, if_pos h2]
        · rw [if_neg h2, if_neg h2]
          rw [ih, first_valid_answer_spec]

/-- Claim C10: for every SSH command whose remote execution completes with
exit status 0, the CommandResult built by SSHApp._execute_ssh_command reports
exit_code -1 — the same value reported when the connection attempt raises —
because the Python expression exit_status or -1 treats the falsy 0 as absent;
only nonzero exit statuses are reported faithfully. -/
theorem ssh_exit_code_zero_reported_neg_one :
    (∀ out err, (_execute_ssh_command (.completed 0 out err)).exit_code = -1) ∧
    (∀ out msg, (_execute_ssh_command (.raised out msg)).exit_code = -1) ∧
    (∀ (status : Int) out err, status ≠ 0 →
        (_execute_ssh_command (.completed status out err)).exit_code = status) := by
  refine ⟨fun out err => rfl, fun out msg => rfl, fun status out err h => ?_⟩
  simp [_execute_ssh_command, exitStatusOrNegOne, h]

/-- Witness for C10: a successful command (status 0) is reported as -1 like a
failed connection, while status 7 is reported as 7. -/
theorem ssh_exit_code_zero_reported_neg_one_witness :
    (_execute_ssh_command (.completed 0 "ok" "")).exit_code = -1 ∧
    (_execute_ssh_command (.raised "" "connection refused")).exit_code = -1 ∧
    (_execute_ssh_command (.completed 7 "" "boom")).exit_code = 7 :=
  ⟨ssh_exit_code_zero_reported_neg_one.1 "ok" "",
   ssh_exit_code_zero_reported_neg_one.2.1 "" "connection refused",
   ssh_exit_code_zero_reported_neg_one.2.2 7 "" "boom" (by decide)⟩

end Ami
